import Mathlib

/-
Verification of the s3-object-streams library (Node.js).

Shallow embedding notes:
- JavaScript strings are modeled as `List Char` (`Str`), with the
  lexicographic order on `List Char` standing in for the JavaScript `<`
  comparison on strings (identical on the code points used here).
- JavaScript numbers reaching the usage stream are integers in practice;
  they are modeled as `Int` (the `typeof x === 'number'` check does not
  exclude negative values, which matters below).
- The mutable stream state of `S3UsageStream` (`this.totals`,
  `this.sortedTotals`, `this.count`) is modeled by explicit state passing.
  In the JavaScript code `sortedTotals` is an array of references to the
  very objects stored in the `totals` map, so mutations through `totals`
  are visible through `sortedTotals`; the embedding keeps `totals` as an
  association list and represents `sortedTotals` by the sorted list of the
  paths of the shared node objects, recovering the array of nodes by
  lookup when a snapshot is cloned and pushed.
- Asynchronous callbacks are modeled by `Except` results; a transform
  step returns the new state, the list of pushed snapshots and an
  optional error, exactly the externally observable effects of one call.
-/

abbrev Str := List Char

def str (s : String) : Str := s.toList

/-- The storage class enumeration from `lib/constants.js`
(`exports.storageClass`), including `STANDARD_IA` (added in 0.6.1). -/
def storageClassValues : List Str :=
  [str "STANDARD", str "STANDARD_IA", str "REDUCED_REDUNDANCY", str "GLACIER"]

/-- A JavaScript value as far as the `_transform` type checks can tell
them apart: a string, a number, or anything else (undefined, objects…). -/
inductive JsValue where
  | vstr (s : Str)
  | vnum (n : Int)
  | vundef
deriving DecidableEq

def JsValue.isString : JsValue → Bool
  | .vstr _ => true
  | _ => false

def JsValue.isNumber : JsValue → Bool
  | .vnum _ => true
  | _ => false

/-- An incoming object as `S3UsageStream.prototype._transform` receives
it, before the `typeof` validation (fields may be of the wrong type).
`StorageClass` is kept as a raw string: `_.includes` over the four string
constants returns false for any value outside the enumeration, so a
non-string storage class behaves exactly like an unknown string. -/
structure RawS3Object where
  Bucket : JsValue
  Key : JsValue
  Size : JsValue
  StorageClass : Str
deriving DecidableEq

/-- An S3 object definition after `_transform` validation: `Bucket` and
`Key` are strings and `Size` is a number. -/
structure S3Object where
  Bucket : Str
  Key : Str
  Size : Int
  StorageClass : Str
deriving DecidableEq

/-- The `{ count: …, size: … }` record kept per storage class. -/
structure TierTotals where
  count : Nat
  size : Int
deriving DecidableEq

/-- One entry of `this.totals` / `this.sortedTotals`:
`{ path: …, storageClass: { STANDARD: {count, size}, … } }`. -/
structure UsageNode where
  path : Str
  storageClass : List (Str × TierTotals)
deriving DecidableEq

/-- The mutable state of an `S3UsageStream` instance: the `totals` map
(association list keyed by path), the sorted array of (references to) the
same nodes — represented by its list of paths — and the observation
counter. -/
structure UsageState where
  totals : List (Str × UsageNode)
  sortedTotals : List Str
  count : Nat
deriving DecidableEq

/-- State set up by the `S3UsageStream` constructor. -/
def initialUsageState : UsageState := ⟨[], [], 0⟩

/-- Configuration of the stream after the constructor applied defaults
(`delimiter || '/'`, `depth || 0`, `outputFactor || 100`). -/
structure UsageOptions where
  delimiter : Str
  depth : Nat
  outputFactor : Nat
deriving DecidableEq

/-- Property lookup in a JavaScript-object-as-map, modeled on an
association list (keys are unique in all reachable states). -/
def jsGet (m : List (Str × α)) (k : Str) : Option α :=
  (m.find? (fun q => decide (q.1 = k))).map (·.2)

/-- Worker for `jsSplit`, structurally recursive on a fuel argument that
starts at the length of the string, which suffices because every step
consumes at least one character. `acc` holds the current segment in
reverse. -/
def jsSplitGo (delim : Str) : Nat → Str → Str → List Str
  | _, [], acc => [acc.reverse]
  | 0, rest, acc => [acc.reverse ++ rest]
  | fuel+1, c :: rest, acc =>
      if delim.isPrefixOf (c :: rest) then
        acc.reverse :: jsSplitGo delim fuel ((c :: rest).drop delim.length) []
      else
        jsSplitGo delim fuel rest (c :: acc)

/-- JavaScript `s.split(delim)` for a non-empty string delimiter (the
constructor default `options.delimiter || '/'` rules out the empty
string, which JavaScript treats specially). -/
def jsSplit (s delim : Str) : List Str :=
  if delim = [] then [s] else jsSplitGo delim s.length s []

/-- Path assembly of `S3UsageStream.prototype.updateTotals` (the
"Assemble paths" block): the bucket itself and, when `depth > 0`, the
bucket joined with the first `index + 1` key segments for each `index`
below `min(depth, segments)`, where the segments are the key split on the
delimiter with the final segment (the file name) popped off. -/
def derivePaths (delimiter : Str) (depth : Nat) (bucket key : Str) : List Str :=
  if 0 < depth then
    let pathSegments := (jsSplit key delimiter).dropLast
    let limit := min depth pathSegments.length
    bucket ::
      (List.range limit).map
        (fun index => List.intercalate delimiter (bucket :: pathSegments.take (index + 1)))
  else
    [bucket]

/-- The index computed by `_.sortedIndexBy(self.sortedTotals, node, item => item.path)`:
the lowest index at which the path can be inserted while keeping the
array sorted. Lodash finds it by binary search; on a sorted array that is
the length of the leading run of strictly smaller elements, which is what
this equivalent recursion computes. -/
def sortedIndexBy (l : List Str) (v : Str) : Nat :=
  match l with
  | [] => 0
  | x :: xs => if x < v then sortedIndexBy xs v + 1 else 0

/-- The freshly created node for a path, with every storage class of the
enumeration pre-initialized to `{ count: 0, size: 0 }`. -/
def newUsageNode (path : Str) : UsageNode :=
  ⟨path, storageClassValues.map (fun sc => (sc, ⟨0, 0⟩))⟩

/-- The `count++` / `size += s3Object.Size` update on the per-class
record of the observed storage class. -/
def bumpTier (sc : Str) (size : Int) (t : List (Str × TierTotals)) : List (Str × TierTotals) :=
  t.map (fun q => if q.1 = sc then (q.1, ⟨q.2.count + 1, q.2.size + size⟩) else q)

def bumpNode (sc : Str) (size : Int) (n : UsageNode) : UsageNode :=
  ⟨n.path, bumpTier sc size n.storageClass⟩

/-- Body of the `paths.forEach` loop in `updateTotals`: create the node
for the path if absent (splicing its path into the sorted array at its
`sortedIndexBy` position), then increment the count and add the size on
the record of the observed storage class. -/
def addPathTotal (sc : Str) (size : Int) (s : UsageState) (path : Str) : UsageState :=
  let s1 :=
    if (jsGet s.totals path).isSome then s
    else
      { s with
        totals := s.totals ++ [(path, newUsageNode path)]
        sortedTotals := s.sortedTotals.insertIdx (sortedIndexBy s.sortedTotals path) path }
  { s1 with
    totals := s1.totals.map (fun q => if q.1 = path then (q.1, bumpNode sc size q.2) else q) }

/-- The deep copy of `this.sortedTotals` pushed downstream: the array
holds references to the nodes of the `totals` map, so the clone is the
list of looked-up nodes in sorted path order. -/
def snapshotOf (s : UsageState) : List UsageNode :=
  s.sortedTotals.filterMap (fun p => jsGet s.totals p)

/-- `S3UsageStream.prototype.updateTotals`: reject a storage class
outside the enumeration, otherwise fold the per-path update over the
derived paths, increment the observation counter, and push a cloned
snapshot when the counter is a multiple of `outputFactor`. Returns the
new state and the pushed snapshots, or the error. -/
def updateTotals (opts : UsageOptions) (s : UsageState) (o : S3Object) :
    Except Str (UsageState × List (List UsageNode)) :=
  if o.StorageClass ∈ storageClassValues then
    let paths := derivePaths opts.delimiter opts.depth o.Bucket o.Key
    let s1 := paths.foldl (addPathTotal o.StorageClass o.Size) s
    let s2 : UsageState := ⟨s1.totals, s1.sortedTotals, s1.count + 1⟩
    let pushed := if s2.count % opts.outputFactor = 0 then [snapshotOf s2] else []
    .ok (s2, pushed)
  else
    .error (str "Unknown storage class")

/-- Externally observable outcome of one `_transform` call: the state
afterwards, the snapshots pushed during the call, and the error given to
the callback, if any. -/
structure StepResult where
  state : UsageState
  pushed : List (List UsageNode)
  error : Option Str
deriving DecidableEq

/-- `S3UsageStream.prototype._transform`: reject a missing input or one
whose `Bucket`/`Key` is not a string or whose `Size` is not a number
before `updateTotals` runs; otherwise run `updateTotals`. On either kind
of error the state is left as it was and nothing is pushed. -/
def s3Transform (opts : UsageOptions) (s : UsageState) (data : Option RawS3Object) : StepResult :=
  match data with
  | none => ⟨s, [], some (str "Invalid S3 object definition provided")⟩
  | some d =>
    match d.Bucket, d.Key, d.Size with
    | .vstr b, .vstr k, .vnum n =>
        match updateTotals opts s ⟨b, k, n, d.StorageClass⟩ with
        | .ok (s2, pushed) => ⟨s2, pushed, none⟩
        | .error e => ⟨s, [], some e⟩
    | _, _, _ => ⟨s, [], some (str "Invalid S3 object definition provided")⟩

/-- Sequential processing of a list of written inputs by the transform
stream, collecting every pushed snapshot. -/
def runObserve (opts : UsageOptions) : UsageState → List (Option RawS3Object) →
    UsageState × List (List UsageNode)
  | s, [] => (s, [])
  | s, d :: ds =>
      let r := s3Transform opts s d
      let rest := runObserve opts r.state ds
      (rest.1, r.pushed ++ rest.2)

/-- The overridden `S3UsageStream.prototype.end`: unconditionally push
one cloned snapshot of the sorted totals. -/
def endPush (s : UsageState) : List (List UsageNode) := [snapshotOf s]

/-- A whole run: write each input, then signal end-of-input. -/
def runStream (opts : UsageOptions) (inputs : List (Option RawS3Object)) :
    UsageState × List (List UsageNode) :=
  let r := runObserve opts initialUsageState inputs
  (r.1, r.2 ++ endPush r.1)

/-- An input that passes all of the engine's validation: the `_transform`
type checks and the storage class membership check of `updateTotals`. -/
def validEntry (d : Option RawS3Object) : Bool :=
  match d with
  | none => false
  | some d =>
      d.Bucket.isString && d.Key.isString && d.Size.isNumber &&
        decide (d.StorageClass ∈ storageClassValues)

/-- The count recorded for a path and storage class (0 when the path or
class is untracked). -/
def tierCount (s : UsageState) (path sc : Str) : Nat :=
  match jsGet s.totals path with
  | none => 0
  | some n =>
      match jsGet n.storageClass sc with
      | none => 0
      | some t => t.count

/-- The total size recorded for a path and storage class (0 when the
path or class is untracked). -/
def tierSize (s : UsageState) (path sc : Str) : Int :=
  match jsGet s.totals path with
  | none => 0
  | some n =>
      match jsGet n.storageClass sc with
      | none => 0
      | some t => t.size

/-- The entry's size, if it is a number at all, is non-negative. The
`typeof data.Size !== 'number'` check of `_transform` does not enforce
this. -/
def sizeNonneg (d : Option RawS3Object) : Bool :=
  match d with
  | none => true
  | some r =>
      match r.Size with
      | .vnum n => decide (0 ≤ n)
      | _ => true

/-- The three entries of the end-to-end example: objects
`bucket/a/b/1` (size 10, STANDARD), `bucket/a/b/2` (size 20, STANDARD)
and `bucket/a/b/3` (size 30, GLACIER). -/
def entriesC4 : List (Option RawS3Object) :=
  [some ⟨.vstr (str "bucket"), .vstr (str "a/b/1"), .vnum 10, str "STANDARD"⟩,
   some ⟨.vstr (str "bucket"), .vstr (str "a/b/2"), .vnum 20, str "STANDARD"⟩,
   some ⟨.vstr (str "bucket"), .vstr (str "a/b/3"), .vnum 30, str "GLACIER"⟩]

/-- The per-class totals every node of the example ends up with:
STANDARD count 2 / size 30, GLACIER count 1 / size 30, zero elsewhere. -/
def tiersC4 : List (Str × TierTotals) :=
  [(str "STANDARD", ⟨2, 30⟩), (str "STANDARD_IA", ⟨0, 0⟩),
   (str "REDUCED_REDUNDANCY", ⟨0, 0⟩), (str "GLACIER", ⟨1, 30⟩)]

/-- The snapshot the example must produce after its third observation:
exactly the nodes `bucket`, `bucket/a` and `bucket/a/b`, in sorted order,
each carrying `tiersC4`. -/
def expectedC4 : List UsageNode :=
  [⟨str "bucket", tiersC4⟩, ⟨str "bucket/a", tiersC4⟩, ⟨str "bucket/a/b", tiersC4⟩]

/-- A valid entry of size 5 used to set up the monotonicity
counterexample. -/
def entryC6pos : RawS3Object :=
  ⟨.vstr (str "bucket"), .vstr (str "k"), .vnum 5, str "STANDARD"⟩

/-- An entry of size `-1`: `typeof (-1) === 'number'`, so it passes the
whole input validation of the engine. -/
def entryC6neg : RawS3Object :=
  ⟨.vstr (str "bucket"), .vstr (str "k"), .vnum (-1), str "STANDARD"⟩

/-- An object returned in the `Contents` of a listing response. Only its
`Key` participates in the cursor logic; the remaining S3 fields are
irrelevant here. -/
structure ListedObject where
  Key : Str
deriving DecidableEq

/-- The fields of an S3 `listObjects` API response that the listing
streams consult: the truncation flag, the page's objects, and the
`NextMarker` field used by the common-prefix variant (absent unless the
API chooses to send it). -/
structure ListResponse where
  IsTruncated : Bool
  Contents : List ListedObject
  NextMarker : Option Str
deriving DecidableEq

/-- The `async.retry(times, task, callback)` combinator used around
`s3Client.listObjects`: run the task, and on failure run it again, up to
`times` total attempts; the callback receives the first success or the
last error. The task is modeled as a function from the attempt number to
that attempt's outcome. -/
def asyncRetry (task : Nat → Except Str ListResponse) : Nat → Nat → Except Str ListResponse
  | 0, i => task i
  | times+1, i =>
      match task i with
      | .ok r => .ok r
      | .error e => if times = 0 then .error e else asyncRetry task times (i+1)

/-- The `nextMarker` computed by `S3ListObjectStream.prototype.listObjectsPage`:
left undefined unless the response is truncated, in which case the last
listed key is used (the plain listing API sends no `NextMarker`). The
JavaScript code reads `Contents[Contents.length - 1].Key`, which assumes
a truncated page is non-empty; an empty truncated page is excluded by
the well-formedness hypothesis of the theorems below. -/
def pageNextMarker (r : ListResponse) : Option Str :=
  if r.IsTruncated then (r.Contents.getLast?).map (·.Key) else none

/-- The `nextMarker` computed by
`S3ConcurrentListObjectStream.prototype.listCommonPrefixesPage`: left
undefined unless the response is truncated, in which case
`response.NextMarker` is passed along. -/
def commonPageNextMarker (r : ListResponse) : Option Str :=
  if r.IsTruncated then r.NextMarker else none

/-- One `listObjectsPage` call: up to three attempts of the remote
request, then either the single error or the page's contents together
with the continuation marker. -/
def listObjectsPage (task : Nat → Except Str ListResponse) :
    Except Str (Option Str × List ListedObject) :=
  match asyncRetry task 3 0 with
  | .error e => .error e
  | .ok r => .ok (pageNextMarker r, r.Contents)

/-- JavaScript truthiness of the `nextMarker` callback argument: an
absent value and the empty string are falsy. -/
def jsTruthyMarker : Option Str → Bool
  | none => false
  | some s => !s.isEmpty

/-- The `if (nextMarker) listRecusively(nextMarker)` decision in
`listObjects`: after a page completes, a further page request is issued
exactly when the page's marker is truthy. -/
def issuesFurtherRequest (r : ListResponse) : Bool :=
  jsTruthyMarker (pageNextMarker r)

/-- Well-formedness of a response of the plain listing API, as the code
assumes it: a truncated page has at least one object and its last key is
a non-empty string. -/
def wfListResponse (r : ListResponse) : Bool :=
  !r.IsTruncated ||
    (match r.Contents.getLast? with
     | none => false
     | some c => !c.Key.isEmpty)

/-- Well-formedness of a response of the delimiter-grouped listing API:
when the page is truncated the API sends a non-empty `NextMarker`. -/
def wfCommonPageResponse (r : ListResponse) : Bool :=
  !r.IsTruncated ||
    (match r.NextMarker with
     | none => false
     | some m => !m.isEmpty)

/-- Options written to the concurrent listing stream, before
`processIncomingObject` applies defaults (only the fields it defaults;
`s3Client` and `bucket` have already been checked present). -/
structure ConcurrentListOptions where
  delimiter : Option Str
  maxConcurrency : Option Nat
  maxKeys : Option Nat
deriving DecidableEq

/-- JavaScript `x || d` for an optional number: `undefined` and `0` are
falsy and fall back to the default. -/
def jsOrNat : Option Nat → Nat → Nat
  | none, d => d
  | some 0, d => d
  | some (n+1), _ => n+1

/-- JavaScript `x || d` for an optional string: `undefined` and `''` are
falsy and fall back to the default. -/
def jsOrStr : Option Str → Str → Str
  | none, d => d
  | some [], d => d
  | some (c :: cs), _ => c :: cs

/-- The defaults applied at the top of
`S3ConcurrentListObjectStream.prototype.processIncomingObject`:
`options.delimiter = options.delimiter || '/'`,
`options.maxConcurrency = options.maxConcurrency || 10`,
`options.maxKeys = options.maxKeys || 1000`. -/
structure AppliedConcurrentOptions where
  delimiter : Str
  maxConcurrency : Nat
  maxKeys : Nat
deriving DecidableEq

def applyIncomingDefaults (o : ConcurrentListOptions) : AppliedConcurrentOptions :=
  ⟨jsOrStr o.delimiter (str "/"), jsOrNat o.maxConcurrency 10, jsOrNat o.maxKeys 1000⟩

/-- The concurrency ceiling of a run: the value
`listObjectsConcurrently` hands to `async.parallelLimit` as its limit
argument, namely `options.maxConcurrency` after the defaults above. -/
def parallelLimitUsed (o : ConcurrentListOptions) : Nat :=
  (applyIncomingDefaults o).maxConcurrency

/-- C3: for every entry and configuration, path derivation yields exactly
one path (the bucket root) when `depth = 0`, and for `depth = D > 0` the
root plus `min(D, availableSegments)` ancestor paths, where the available
segments are the key split on the delimiter with the final segment
discarded — never more paths than available segments. -/
theorem spec_c3 (delimiter bucket key : Str) (depth : Nat) :
    derivePaths delimiter 0 bucket key = [bucket] ∧
      (0 < depth →
        (derivePaths delimiter depth bucket key).length =
          1 + min depth ((jsSplit key delimiter).dropLast).length) := by
  constructor
  · simp [derivePaths]
  · intro h
    simp [derivePaths, h]
    omega

theorem spec_c3_witness :
    derivePaths (str "/") 0 (str "bucket") (str "a/b/c") = [str "bucket"] ∧
      (0 < 2 ∧
        (derivePaths (str "/") 2 (str "bucket") (str "a/b/c")).length =
          1 + min 2 ((jsSplit (str "a/b/c") (str "/")).dropLast).length) :=
  ⟨(spec_c3 (str "/") (str "bucket") (str "a/b/c") 0).1,
    by decide,
    (spec_c3 (str "/") (str "bucket") (str "a/b/c") 2).2 (by decide)⟩

/-- C2: observing an entry whose storage class lies outside the closed
enumeration `{STANDARD, STANDARD_IA, REDUCED_REDUNDANCY, GLACIER}` yields
an error, leaves the whole prior aggregation state (totals map, sorted
node collection and observation counter) unchanged, and pushes no
snapshot. -/
theorem spec_c2 (opts : UsageOptions) (s : UsageState) (d : RawS3Object)
    (hsc : d.StorageClass ∉ storageClassValues) :
    (s3Transform opts s (some d)).error.isSome = true ∧
      (s3Transform opts s (some d)).state = s ∧
      (s3Transform opts s (some d)).pushed = [] := by
  obtain ⟨B, K, Sz, SC⟩ := d
  cases B <;> cases K <;> cases Sz <;>
    simp_all [s3Transform, updateTotals]

theorem spec_c2_witness :
    ((str "UNKNOWN") ∉ storageClassValues) ∧
      ((s3Transform ⟨str "/", 2, 1⟩ initialUsageState
          (some ⟨.vstr (str "bucket"), .vstr (str "a/b/1"), .vnum 10, str "UNKNOWN"⟩)).error.isSome = true ∧
        (s3Transform ⟨str "/", 2, 1⟩ initialUsageState
          (some ⟨.vstr (str "bucket"), .vstr (str "a/b/1"), .vnum 10, str "UNKNOWN"⟩)).state = initialUsageState ∧
        (s3Transform ⟨str "/", 2, 1⟩ initialUsageState
          (some ⟨.vstr (str "bucket"), .vstr (str "a/b/1"), .vnum 10, str "UNKNOWN"⟩)).pushed = []) :=
  ⟨by decide,
    spec_c2 ⟨str "/", 2, 1⟩ initialUsageState
      ⟨.vstr (str "bucket"), .vstr (str "a/b/1"), .vnum 10, str "UNKNOWN"⟩ (by decide)⟩

/-- C10: a transform input that is missing, or whose bucket or key is not
a string, or whose size is not a number, is rejected before the update
routine runs: the call yields an error, the state (totals map, sorted
node collection, observation counter) is unchanged, and nothing is
pushed. -/
theorem spec_c10 (opts : UsageOptions) (s : UsageState) (d : Option RawS3Object)
    (h : d = none ∨ ∃ r, d = some r ∧
      (r.Bucket.isString = false ∨ r.Key.isString = false ∨ r.Size.isNumber = false)) :
    (s3Transform opts s d).error.isSome = true ∧
      (s3Transform opts s d).state = s ∧
      (s3Transform opts s d).pushed = [] := by
  rcases h with h | ⟨r, rfl, h⟩
  · subst h
    simp [s3Transform]
  · obtain ⟨B, K, Sz, SC⟩ := r
    cases B <;> cases K <;> cases Sz <;>
      simp_all [s3Transform, JsValue.isString, JsValue.isNumber]

theorem spec_c10_witness :
    ((none : Option RawS3Object) = none ∨ ∃ r, (none : Option RawS3Object) = some r ∧
        (r.Bucket.isString = false ∨ r.Key.isString = false ∨ r.Size.isNumber = false)) ∧
      ((s3Transform ⟨str "/", 2, 1⟩ initialUsageState none).error.isSome = true ∧
        (s3Transform ⟨str "/", 2, 1⟩ initialUsageState none).state = initialUsageState ∧
        (s3Transform ⟨str "/", 2, 1⟩ initialUsageState none).pushed = []) :=
  ⟨Or.inl rfl, spec_c10 ⟨str "/", 2, 1⟩ initialUsageState none (Or.inl rfl)⟩

lemma addPathTotal_count (sc : Str) (size : Int) (s : UsageState) (p : Str) :
    (addPathTotal sc size s p).count = s.count := by
  unfold addPathTotal
  dsimp only
  split <;> rfl

lemma foldl_addPathTotal_count (sc : Str) (size : Int) :
    ∀ (paths : List Str) (s : UsageState),
      (paths.foldl (addPathTotal sc size) s).count = s.count := by
  intro paths
  induction paths with
  | nil => intro s; rfl
  | cons p ps ih =>
      intro s
      simp only [List.foldl_cons, ih, addPathTotal_count]

/-- One accepted observation increments the counter and pushes exactly one
snapshot when the new counter value is a multiple of the output factor. -/
lemma s3Transform_valid_step (opts : UsageOptions) (s : UsageState)
    (d : Option RawS3Object) (hv : validEntry d = true) :
    (s3Transform opts s d).error = none ∧
      (s3Transform opts s d).state.count = s.count + 1 ∧
      (s3Transform opts s d).pushed.length =
        (if (s.count + 1) % opts.outputFactor = 0 then 1 else 0) := by
  match d with
  | none => simp [validEntry] at hv
  | some r =>
      obtain ⟨B, K, Sz, SC⟩ := r
      cases B <;> cases K <;> cases Sz <;>
        simp_all [validEntry, JsValue.isString, JsValue.isNumber, s3Transform,
          updateTotals, foldl_addPathTotal_count, apply_ite List.length]

lemma runObserve_count_pushes (opts : UsageOptions) :
    ∀ (entries : List (Option RawS3Object)) (s : UsageState),
      (∀ d ∈ entries, validEntry d = true) →
      (runObserve opts s entries).1.count = s.count + entries.length ∧
        (runObserve opts s entries).2.length + s.count / opts.outputFactor =
          (s.count + entries.length) / opts.outputFactor := by
  intro entries
  induction entries with
  | nil => intro s _; simp [runObserve]
  | cons d ds ih =>
      intro s hv
      have hd : validEntry d = true := hv d (List.mem_cons_self d ds)
      have hds : ∀ x ∈ ds, validEntry x = true :=
        fun x hx => hv x (List.mem_cons_of_mem d hx)
      obtain ⟨-, hcount, hlen⟩ := s3Transform_valid_step opts s d hd
      obtain ⟨ihc, ihp⟩ := ih (s3Transform opts s d).state hds
      constructor
      · simp only [runObserve, ihc, hcount, List.length_cons]
        omega
      · simp only [runObserve, List.length_append, List.length_cons]
        rw [hcount] at ihc ihp
        have hsucc := Nat.succ_div (s.count) (opts.outputFactor)
        have hdvd : opts.outputFactor ∣ (s.count + 1) ↔
            (s.count + 1) % opts.outputFactor = 0 :=
          Nat.dvd_iff_mod_eq_zero
        have hq : s.count + (ds.length + 1) = s.count + 1 + ds.length := by omega
        rw [hq]
        by_cases hc : (s.count + 1) % opts.outputFactor = 0
        · rw [if_pos hc] at hlen
          rw [if_pos (hdvd.mpr hc)] at hsucc
          omega
        · rw [if_neg hc] at hlen
          rw [if_neg (fun hdd => hc (hdvd.mp hdd))] at hsucc
          omega

/-- C1: a run of the usage stream with output factor `F ≥ 1` that observes
`N` valid entries pushes exactly `⌊N / F⌋` throttled snapshots during
observation (one after each observation whose running counter is a
multiple of `F`), and end-of-input pushes exactly one additional final
snapshot, so the whole run pushes `⌊N / F⌋ + 1` snapshots — for any `N`,
including `N = 0`. -/
theorem spec_c1 (opts : UsageOptions) (entries : List (Option RawS3Object))
    (hF : 1 ≤ opts.outputFactor)
    (hv : ∀ d ∈ entries, validEntry d = true) :
    (runObserve opts initialUsageState entries).2.length =
        entries.length / opts.outputFactor ∧
      (runStream opts entries).2.length =
        entries.length / opts.outputFactor + 1 := by
  obtain ⟨-, hp⟩ := runObserve_count_pushes opts entries initialUsageState hv
  have h0 : initialUsageState.count = 0 := rfl
  rw [h0, Nat.zero_div, Nat.add_zero, Nat.zero_add] at hp
  refine ⟨hp, ?_⟩
  simp only [runStream, endPush, List.length_append, List.length_singleton, hp]

theorem spec_c1_witness :
    (1 ≤ (2 : Nat)) ∧
      (∀ d ∈ [some (⟨.vstr (str "bucket"), .vstr (str "a/b/1"), .vnum 10, str "STANDARD"⟩ : RawS3Object),
              some ⟨.vstr (str "bucket"), .vstr (str "a/b/2"), .vnum 20, str "STANDARD"⟩,
              some ⟨.vstr (str "bucket"), .vstr (str "a/b/3"), .vnum 30, str "GLACIER"⟩],
          validEntry d = true) ∧
      ((runObserve ⟨str "/", 2, 2⟩ initialUsageState
          [some ⟨.vstr (str "bucket"), .vstr (str "a/b/1"), .vnum 10, str "STANDARD"⟩,
           some ⟨.vstr (str "bucket"), .vstr (str "a/b/2"), .vnum 20, str "STANDARD"⟩,
           some ⟨.vstr (str "bucket"), .vstr (str "a/b/3"), .vnum 30, str "GLACIER"⟩]).2.length =
          [some (⟨.vstr (str "bucket"), .vstr (str "a/b/1"), .vnum 10, str "STANDARD"⟩ : RawS3Object),
           some ⟨.vstr (str "bucket"), .vstr (str "a/b/2"), .vnum 20, str "STANDARD"⟩,
           some ⟨.vstr (str "bucket"), .vstr (str "a/b/3"), .vnum 30, str "GLACIER"⟩].length / 2 ∧
        (runStream ⟨str "/", 2, 2⟩
          [some ⟨.vstr (str "bucket"), .vstr (str "a/b/1"), .vnum 10, str "STANDARD"⟩,
           some ⟨.vstr (str "bucket"), .vstr (str "a/b/2"), .vnum 20, str "STANDARD"⟩,
           some ⟨.vstr (str "bucket"), .vstr (str "a/b/3"), .vnum 30, str "GLACIER"⟩]).2.length =
          [some (⟨.vstr (str "bucket"), .vstr (str "a/b/1"), .vnum 10, str "STANDARD"⟩ : RawS3Object),
           some ⟨.vstr (str "bucket"), .vstr (str "a/b/2"), .vnum 20, str "STANDARD"⟩,
           some ⟨.vstr (str "bucket"), .vstr (str "a/b/3"), .vnum 30, str "GLACIER"⟩].length / 2 + 1) :=
  ⟨by decide, by decide,
    spec_c1 ⟨str "/", 2, 2⟩
      [some ⟨.vstr (str "bucket"), .vstr (str "a/b/1"), .vnum 10, str "STANDARD"⟩,
       some ⟨.vstr (str "bucket"), .vstr (str "a/b/2"), .vnum 20, str "STANDARD"⟩,
       some ⟨.vstr (str "bucket"), .vstr (str "a/b/3"), .vnum 30, str "GLACIER"⟩]
      (by decide) (by decide)⟩

/-- C4: observing the three example entries in order with `depth = 2`,
delimiter `/` and `outputFactor = 1` pushes a snapshot on every
observation, and the snapshot pushed after the third observation consists
exactly of the nodes `bucket`, `bucket/a` and `bucket/a/b`, each with
STANDARD count 2 / total size 30 and GLACIER count 1 / total size 30 and
zero count and size for every other storage class. -/
theorem spec_c4 :
    (runObserve ⟨str "/", 2, 1⟩ initialUsageState entriesC4).2.length = 3 ∧
      (runObserve ⟨str "/", 2, 1⟩ initialUsageState entriesC4).2.getLast? = some expectedC4 := by
  decide

/-- C6 fails as stated: the input validation only checks
`typeof Size === 'number'`, so an entry with a negative size passes every
check the engine makes, and its observation strictly decreases the
recorded total size. Both entries below pass validation; after the first
the STANDARD size of `bucket` is 5, after the second it has dropped
to 4. -/
theorem spec_c6_counterexample :
    validEntry (some entryC6pos) = true ∧
      validEntry (some entryC6neg) = true ∧
      tierSize ((runObserve ⟨str "/", 0, 100⟩ initialUsageState
          [some entryC6pos]).1) (str "bucket") (str "STANDARD") = 5 ∧
      tierSize ((runObserve ⟨str "/", 0, 100⟩ initialUsageState
          [some entryC6pos, some entryC6neg]).1) (str "bucket") (str "STANDARD") = 4 ∧
      ¬ (tierSize ((runObserve ⟨str "/", 0, 100⟩ initialUsageState
            [some entryC6pos]).1) (str "bucket") (str "STANDARD") ≤
          tierSize ((runObserve ⟨str "/", 0, 100⟩ initialUsageState
            [some entryC6pos, some entryC6neg]).1) (str "bucket") (str "STANDARD")) := by
  decide

lemma insertIdx_sortedIndexBy (v : Str) :
    ∀ l : List Str, l.insertIdx (sortedIndexBy l v) v = List.orderedInsert (· ≤ ·) v l := by
  intro l
  induction l with
  | nil => rfl
  | cons x xs ih =>
      by_cases h : x < v
      · have hle : ¬ v ≤ x := not_le.mpr h
        simp only [sortedIndexBy, if_pos h, List.insertIdx_succ_cons, ih,
          List.orderedInsert, if_neg hle]
      · have hle : v ≤ x := le_of_not_lt h
        simp only [sortedIndexBy, if_neg h, List.insertIdx_zero,
          List.orderedInsert, if_pos hle]

lemma addPathTotal_sortedTotals (sc : Str) (size : Int) (s : UsageState) (path : Str) :
    (addPathTotal sc size s path).sortedTotals =
      if (jsGet s.totals path).isSome then s.sortedTotals
      else s.sortedTotals.insertIdx (sortedIndexBy s.sortedTotals path) path := by
  unfold addPathTotal
  dsimp only
  split <;> rfl

lemma sorted_addPathTotal (sc : Str) (size : Int) (s : UsageState) (path : Str)
    (h : List.Sorted (· ≤ ·) s.sortedTotals) :
    List.Sorted (· ≤ ·) (addPathTotal sc size s path).sortedTotals := by
  rw [addPathTotal_sortedTotals]
  by_cases hc : (jsGet s.totals path).isSome
  · rw [if_pos hc]
    exact h
  · rw [if_neg hc, insertIdx_sortedIndexBy]
    exact List.Sorted.orderedInsert path s.sortedTotals h

lemma sorted_foldl_addPathTotal (sc : Str) (size : Int) :
    ∀ (paths : List Str) (s : UsageState),
      List.Sorted (· ≤ ·) s.sortedTotals →
      List.Sorted (· ≤ ·) ((paths.foldl (addPathTotal sc size) s).sortedTotals) := by
  intro paths
  induction paths with
  | nil => intro s h; exact h
  | cons p ps ih =>
      intro s h
      simp only [List.foldl_cons]
      exact ih _ (sorted_addPathTotal sc size s p h)

lemma sorted_s3Transform (opts : UsageOptions) (s : UsageState) (d : Option RawS3Object)
    (h : List.Sorted (· ≤ ·) s.sortedTotals) :
    List.Sorted (· ≤ ·) (s3Transform opts s d).state.sortedTotals := by
  match d with
  | none => exact h
  | some r =>
      obtain ⟨B, K, Sz, SC⟩ := r
      cases B <;> cases K <;> cases Sz <;> try exact h
      by_cases hsc : SC ∈ storageClassValues
      · simp only [s3Transform, updateTotals, if_pos hsc]
        exact sorted_foldl_addPathTotal _ _ _ s h
      · simp only [s3Transform, updateTotals, if_neg hsc]
        exact h

lemma sorted_runObserve (opts : UsageOptions) :
    ∀ (entries : List (Option RawS3Object)) (s : UsageState),
      List.Sorted (· ≤ ·) s.sortedTotals →
      List.Sorted (· ≤ ·) ((runObserve opts s entries).1.sortedTotals) := by
  intro entries
  induction entries with
  | nil => intro s h; exact h
  | cons d ds ih =>
      intro s h
      exact ih _ (sorted_s3Transform opts s d h)

/-- C5: after any sequence of observations, the node collection is in
non-decreasing lexicographic order of path — every snapshot-backing array
stays sorted, each newly created node having been spliced in at its
binary-search insertion index. This covers the state after each observe
call, since the sequence of entries is arbitrary. -/
theorem spec_c5 (opts : UsageOptions) (entries : List (Option RawS3Object)) :
    List.Sorted (· ≤ ·) ((runObserve opts initialUsageState entries).1.sortedTotals) :=
  sorted_runObserve opts entries initialUsageState (List.sorted_nil)

lemma jsGet_append (l m : List (Str × α)) (k : Str) :
    jsGet (l ++ m) k =
      match jsGet l k with
      | some v => some v
      | none => jsGet m k := by
  induction l with
  | nil => simp [jsGet]
  | cons q l ih =>
      by_cases h : q.1 = k
      · simp [jsGet, List.find?, h]
      · simpa [jsGet, List.find?, h] using ih

lemma jsGet_cons (a : Str) (v : α) (l : List (Str × α)) (k : Str) :
    jsGet ((a, v) :: l) k = if a = k then some v else jsGet l k := by
  by_cases h : a = k <;> simp [jsGet, List.find?, h]

lemma jsGet_mapUpdate (l : List (Str × α)) (p k : Str) (g : α → α) :
    jsGet (l.map (fun q => if q.1 = p then (q.1, g q.2) else q)) k =
      if k = p then (jsGet l k).map g else jsGet l k := by
  induction l with
  | nil => simp [jsGet]
  | cons q l ih =>
      obtain ⟨a, v⟩ := q
      by_cases hap : a = p
      · simp only [List.map_cons, if_pos hap, jsGet_cons, ih]
        by_cases hak : a = k
        · have hkp : k = p := by rw [← hak, hap]
          simp [hak, hkp]
        · simp [hak]
      · simp only [List.map_cons, if_neg hap, jsGet_cons, ih]
        by_cases hak : a = k
        · have hkp : ¬ k = p := by rw [← hak]; exact hap
          simp [hak, hkp]
        · simp [hak]

lemma jsGet_mapConst (xs : List Str) (z : α) (k : Str) :
    jsGet (xs.map (fun c => (c, z))) k = none ∨
      jsGet (xs.map (fun c => (c, z))) k = some z := by
  induction xs with
  | nil => left; rfl
  | cons a xs ih =>
      by_cases h : a = k
      · right; simp [jsGet, List.find?, h]
      · simpa [jsGet, List.find?, h] using ih

lemma addPathTotal_lookup_other (sc : Str) (size : Int) (s : UsageState) (path k : Str)
    (hk : ¬ k = path) :
    jsGet (addPathTotal sc size s path).totals k = jsGet s.totals k := by
  unfold addPathTotal
  dsimp only
  by_cases hp : (jsGet s.totals path).isSome
  · rw [if_pos hp, jsGet_mapUpdate, if_neg hk]
  · rw [if_neg hp, jsGet_mapUpdate, if_neg hk, jsGet_append, jsGet_cons,
      if_neg (fun h => hk h.symm)]
    cases jsGet s.totals k <;> simp [jsGet]

lemma addPathTotal_lookup_self (sc : Str) (size : Int) (s : UsageState) (path : Str) :
    jsGet (addPathTotal sc size s path).totals path =
      some (bumpNode sc size
        (match jsGet s.totals path with
         | some n => n
         | none => newUsageNode path)) := by
  unfold addPathTotal
  dsimp only
  by_cases hp : (jsGet s.totals path).isSome
  · obtain ⟨n, hn⟩ := Option.isSome_iff_exists.mp hp
    rw [if_pos hp, jsGet_mapUpdate, if_pos rfl, hn]
    rfl
  · have hnone : jsGet s.totals path = none := Option.not_isSome_iff_eq_none.mp hp
    rw [if_neg hp, jsGet_mapUpdate, if_pos rfl, jsGet_append, jsGet_cons, hnone]
    simp

lemma bumpTier_lookup (sc : Str) (size : Int) (t : List (Str × TierTotals)) (sc' : Str) :
    jsGet (bumpTier sc size t) sc' =
      if sc' = sc then
        (jsGet t sc').map (fun v => ⟨v.count + 1, v.size + size⟩)
      else jsGet t sc' := by
  unfold bumpTier
  exact jsGet_mapUpdate t sc sc' (fun v => ⟨v.count + 1, v.size + size⟩)

lemma tier_mono_addPathTotal (sc : Str) (size : Int)
    (s : UsageState) (path p sc' : Str) :
    tierCount s p sc' ≤ tierCount (addPathTotal sc size s path) p sc' ∧
      (0 ≤ size →
        tierSize s p sc' ≤ tierSize (addPathTotal sc size s path) p sc') := by
  by_cases hp : p = path
  · subst hp
    have hself := addPathTotal_lookup_self sc size s p
    cases hn : jsGet s.totals p with
    | none =>
        rw [hn] at hself
        simp only [tierCount, tierSize, hn, hself, bumpNode, newUsageNode, bumpTier_lookup]
        constructor
        · exact Nat.zero_le _
        · intro hsz
          by_cases hsc : sc' = sc
          · rw [if_pos hsc]
            rcases jsGet_mapConst storageClassValues (⟨0, 0⟩ : TierTotals) sc' with h0 | h0 <;>
              rw [h0] <;> simp [hsz]
          · rw [if_neg hsc]
            rcases jsGet_mapConst storageClassValues (⟨0, 0⟩ : TierTotals) sc' with h0 | h0 <;>
              rw [h0]
    | some n =>
        rw [hn] at hself
        simp only [tierCount, tierSize, hn, hself, bumpNode, bumpTier_lookup]
        by_cases hsc : sc' = sc
        · rw [if_pos hsc]
          cases ht : jsGet n.storageClass sc' with
          | none => simp
          | some t =>
              constructor
              · simp
              · intro hsz
                simp only [Option.map_some]
                exact le_add_of_nonneg_right hsz
        · rw [if_neg hsc]
          exact ⟨le_refl _, fun _ => le_refl _⟩
  · have h := addPathTotal_lookup_other sc size s path p hp
    simp only [tierCount, tierSize, h]
    exact ⟨le_refl _, fun _ => le_refl _⟩

lemma tier_mono_foldl (sc : Str) (size : Int) :
    ∀ (paths : List Str) (s : UsageState) (p sc' : Str),
      tierCount s p sc' ≤ tierCount (paths.foldl (addPathTotal sc size) s) p sc' ∧
        (0 ≤ size →
          tierSize s p sc' ≤ tierSize (paths.foldl (addPathTotal sc size) s) p sc') := by
  intro paths
  induction paths with
  | nil => intro s p sc'; exact ⟨le_refl _, fun _ => le_refl _⟩
  | cons q qs ih =>
      intro s p sc'
      obtain ⟨h1, h2⟩ := tier_mono_addPathTotal sc size s q p sc'
      obtain ⟨h3, h4⟩ := ih (addPathTotal sc size s q) p sc'
      simp only [List.foldl_cons]
      exact ⟨le_trans h1 h3, fun hsz => le_trans (h2 hsz) (h4 hsz)⟩

/-- C6 amended: every observe call leaves every recorded per-path,
per-class count unchanged or larger, with no side condition — the engine
increments the count of every accepted entry regardless of its size —
and leaves every recorded total size unchanged or larger provided the
observed entry's size is non-negative, which the engine's validation
does not enforce (see the counterexample). -/
theorem spec_c6 (opts : UsageOptions) (s : UsageState) (d : Option RawS3Object)
    (p sc' : Str) :
    tierCount s p sc' ≤ tierCount (s3Transform opts s d).state p sc' ∧
      (sizeNonneg d = true →
        tierSize s p sc' ≤ tierSize (s3Transform opts s d).state p sc') := by
  match d with
  | none => exact ⟨le_refl _, fun _ => le_refl _⟩
  | some r =>
      obtain ⟨B, K, Sz, SC⟩ := r
      cases B <;> cases K <;> cases Sz <;> try exact ⟨le_refl _, fun _ => le_refl _⟩
      rename_i b k n
      by_cases hsc : SC ∈ storageClassValues
      · simp only [s3Transform, updateTotals, if_pos hsc]
        obtain ⟨h1, h2⟩ :=
          tier_mono_foldl SC n (derivePaths opts.delimiter opts.depth b k) s p sc'
        refine ⟨h1, fun hsn => ?_⟩
        simp only [sizeNonneg] at hsn
        exact h2 (of_decide_eq_true hsn)
      · simp only [s3Transform, updateTotals, if_neg hsc]
        exact ⟨le_refl _, fun _ => le_refl _⟩

theorem spec_c6_witness :
    (tierCount initialUsageState (str "bucket") (str "STANDARD") ≤
        tierCount (s3Transform ⟨str "/", 0, 100⟩ initialUsageState
          (some entryC6pos)).state (str "bucket") (str "STANDARD")) ∧
      sizeNonneg (some entryC6pos) = true ∧
      (tierSize initialUsageState (str "bucket") (str "STANDARD") ≤
        tierSize (s3Transform ⟨str "/", 0, 100⟩ initialUsageState
          (some entryC6pos)).state (str "bucket") (str "STANDARD")) :=
  ⟨(spec_c6 ⟨str "/", 0, 100⟩ initialUsageState (some entryC6pos)
      (str "bucket") (str "STANDARD")).1,
    by decide,
    (spec_c6 ⟨str "/", 0, 100⟩ initialUsageState (some entryC6pos)
      (str "bucket") (str "STANDARD")).2 (by decide)⟩

lemma asyncRetry_succ (task : Nat → Except Str ListResponse) (times i : Nat) :
    asyncRetry task (times+1) i =
      match task i with
      | .ok r => .ok r
      | .error e => if times = 0 then .error e else asyncRetry task times (i+1) := rfl

/-- C7: a page-listing call makes up to 3 total attempts of the remote
request. If every attempt fails, the caller receives exactly one error
(the last attempt's), and no entries: the whole call result is that
single error. If some attempt within the budget succeeds (the earlier
ones having failed), the caller receives the page's contents and marker
with no error. -/
theorem spec_c7 (task : Nat → Except Str ListResponse) :
    ((∀ i, i < 3 → ∃ e, task i = .error e) →
        ∃ e, task 2 = .error e ∧ listObjectsPage task = .error e) ∧
      (∀ i r, i < 3 → task i = .ok r →
        (∀ j, j < i → ∃ e, task j = .error e) →
        listObjectsPage task = .ok (pageNextMarker r, r.Contents)) := by
  constructor
  · intro h
    obtain ⟨e0, h0⟩ := h 0 (by omega)
    obtain ⟨e1, h1⟩ := h 1 (by omega)
    obtain ⟨e2, h2⟩ := h 2 (by omega)
    refine ⟨e2, h2, ?_⟩
    have hr : asyncRetry task 3 0 = .error e2 := by
      rw [show (3 : Nat) = 2 + 1 from rfl, asyncRetry_succ, h0]
      simp only [OfNat.ofNat_ne_zero, if_false]
      rw [show (2 : Nat) = 1 + 1 from rfl, asyncRetry_succ, h1]
      simp only [one_ne_zero, if_false]
      rw [show (1 : Nat) = 0 + 1 from rfl, asyncRetry_succ, h2]
      simp
    simp [listObjectsPage, hr]
  · intro i r hi hok hprev
    interval_cases i
    · have hr : asyncRetry task 3 0 = .ok r := by
        rw [show (3 : Nat) = 2 + 1 from rfl, asyncRetry_succ, hok]
      simp [listObjectsPage, hr]
    · obtain ⟨e0, h0⟩ := hprev 0 (by omega)
      have hr : asyncRetry task 3 0 = .ok r := by
        rw [show (3 : Nat) = 2 + 1 from rfl, asyncRetry_succ, h0]
        simp only [OfNat.ofNat_ne_zero, if_false]
        rw [show (2 : Nat) = 1 + 1 from rfl, asyncRetry_succ, hok]
      simp [listObjectsPage, hr]
    · obtain ⟨e0, h0⟩ := hprev 0 (by omega)
      obtain ⟨e1, h1⟩ := hprev 1 (by omega)
      have hr : asyncRetry task 3 0 = .ok r := by
        rw [show (3 : Nat) = 2 + 1 from rfl, asyncRetry_succ, h0]
        simp only [OfNat.ofNat_ne_zero, if_false]
        rw [show (2 : Nat) = 1 + 1 from rfl, asyncRetry_succ, h1]
        simp only [one_ne_zero, if_false]
        rw [show (1 : Nat) = 0 + 1 from rfl, asyncRetry_succ, hok]
      simp [listObjectsPage, hr]

theorem spec_c7_witness :
    ((∀ i, i < 3 → ∃ e, (fun _ => (.error (str "boom") : Except Str ListResponse)) i = .error e) ∧
        ∃ e, (fun _ => (.error (str "boom") : Except Str ListResponse)) 2 = .error e ∧
          listObjectsPage (fun _ => .error (str "boom")) = .error e) ∧
      ((1 : Nat) < 3 ∧
        (fun i => if i = 1 then (.ok ⟨false, [], none⟩ : Except Str ListResponse)
          else .error (str "x")) 1 = .ok ⟨false, [], none⟩ ∧
        (∀ j, j < 1 → ∃ e, (fun i => if i = 1 then (.ok ⟨false, [], none⟩ : Except Str ListResponse)
          else .error (str "x")) j = .error e) ∧
        listObjectsPage (fun i => if i = 1 then .ok ⟨false, [], none⟩ else .error (str "x")) =
          .ok (pageNextMarker ⟨false, [], none⟩, (⟨false, [], none⟩ : ListResponse).Contents)) :=
  ⟨⟨fun i _ => ⟨str "boom", rfl⟩,
      (spec_c7 (fun _ => .error (str "boom"))).1 (fun i _ => ⟨str "boom", rfl⟩)⟩,
    ⟨by omega, rfl,
      fun j hj => by
        interval_cases j
        exact ⟨str "x", rfl⟩,
      (spec_c7 (fun i => if i = 1 then .ok ⟨false, [], none⟩ else .error (str "x"))).2
        1 ⟨false, [], none⟩ (by omega) rfl
        (fun j hj => by
          interval_cases j
          exact ⟨str "x", rfl⟩)⟩⟩

/-- C8: for a successful page, the continuation cursor is populated if
and only if the remote response reports truncation, and the listing loop
issues a further page request exactly when the cursor is populated —
both for the plain listing page (marker = last listed key) and for the
delimiter-grouped page (marker = the response's `NextMarker`), given the
remote API's well-formedness guarantees on truncated pages. -/
theorem spec_c8 (r : ListResponse)
    (h1 : wfListResponse r = true) (h2 : wfCommonPageResponse r = true) :
    ((pageNextMarker r).isSome = r.IsTruncated) ∧
      (issuesFurtherRequest r = (pageNextMarker r).isSome) ∧
      ((commonPageNextMarker r).isSome = r.IsTruncated) := by
  cases hT : r.IsTruncated
  · simp [pageNextMarker, commonPageNextMarker, issuesFurtherRequest, jsTruthyMarker, hT]
  · simp only [wfListResponse, hT, Bool.not_true, Bool.false_or] at h1
    simp only [wfCommonPageResponse, hT, Bool.not_true, Bool.false_or] at h2
    cases hL : r.Contents.getLast? with
    | none => rw [hL] at h1; simp at h1
    | some c =>
        rw [hL] at h1
        simp at h1
        cases hM : r.NextMarker with
        | none => rw [hM] at h2; simp at h2
        | some m =>
            rw [hM] at h2
            simp at h2
            simp [pageNextMarker, commonPageNextMarker, issuesFurtherRequest,
              jsTruthyMarker, hT, hL, hM, h1, h2]

theorem spec_c8_witness :
    wfListResponse ⟨true, [⟨str "a"⟩], some (str "b")⟩ = true ∧
      wfCommonPageResponse ⟨true, [⟨str "a"⟩], some (str "b")⟩ = true ∧
      (((pageNextMarker ⟨true, [⟨str "a"⟩], some (str "b")⟩).isSome =
            (⟨true, [⟨str "a"⟩], some (str "b")⟩ : ListResponse).IsTruncated) ∧
        (issuesFurtherRequest ⟨true, [⟨str "a"⟩], some (str "b")⟩ =
            (pageNextMarker ⟨true, [⟨str "a"⟩], some (str "b")⟩).isSome) ∧
        ((commonPageNextMarker ⟨true, [⟨str "a"⟩], some (str "b")⟩).isSome =
            (⟨true, [⟨str "a"⟩], some (str "b")⟩ : ListResponse).IsTruncated)) :=
  ⟨by decide, by decide,
    spec_c8 ⟨true, [⟨str "a"⟩], some (str "b")⟩ (by decide) (by decide)⟩

/-- C9 fails as stated: `processIncomingObject` applies
`options.maxConcurrency = options.maxConcurrency || 10`, so a
configuration that omits `maxConcurrency` runs with a concurrency
ceiling of 10, not 15. -/
theorem spec_c9_counterexample :
    parallelLimitUsed ⟨none, none, none⟩ = 10 ∧
      ¬ (parallelLimitUsed ⟨none, none, none⟩ = 15) := by
  decide

/-- C9 amended: when the configuration omits `maxConcurrency`, the
concurrency ceiling handed to `async.parallelLimit` defaults to 10. -/
theorem spec_c9 (o : ConcurrentListOptions) (h : o.maxConcurrency = none) :
    parallelLimitUsed o = 10 := by
  obtain ⟨d, m, k⟩ := o
  cases h
  rfl

theorem spec_c9_witness :
    (⟨none, none, none⟩ : ConcurrentListOptions).maxConcurrency = none ∧
      parallelLimitUsed ⟨none, none, none⟩ = 10 :=
  ⟨rfl, spec_c9 ⟨none, none, none⟩ rfl⟩
